import Mathlib

/-
  Verification development for the oauth-proxy MCP server/client repository.

  Shallow embedding of:
  - src/mcp_resource_server/token_verifier.py  (IntrospectionTokenVerifier.verify_token)
  - src/mcp_resource_server/routes/oauth.py    (register_client, token_proxy)
  - src/mcp_client/callback.py                 (CallbackHandler.do_GET, CallbackServer.wait_for_callback)
  - src/mcp_client/auth.py                     (callback_handler)

  Python strings are Lean String, Python dicts are insertion-ordered association
  lists with unique keys (built only through dictSet), network effects are passed
  in explicitly as values of a Network structure, and raised exceptions are the
  error side of Except.
-/

set_option autoImplicit false

namespace OAuthMCP

/-! ### Character-level string utilities (structural, kernel-evaluable) -/

/-- Split a character list at every occurrence of the separator, like Python
str.split with an explicit separator (no collapsing of empty pieces). -/
def splitCharAux (sep : Char) : List Char → List Char → List (List Char)
  | [], acc => [acc.reverse]
  | c :: cs, acc =>
    if c == sep then acc.reverse :: splitCharAux sep cs []
    else splitCharAux sep cs (c :: acc)

/-- Python s.split(sep) for a one-character separator. -/
def pySplitChar (s : String) (sep : Char) : List String :=
  (splitCharAux sep s.data []).map String.mk

/-- Split at the first occurrence of the separator, like Python s.split(sep, 1):
returns none when the separator does not occur. -/
def splitFirstChar (sep : Char) : List Char → Option (List Char × List Char)
  | [] => none
  | c :: cs =>
    if c == sep then some ([], cs)
    else (splitFirstChar sep cs).map (fun p => (c :: p.1, p.2))

/-- Longest initial segment containing none of the stop characters. -/
def takeUntilChar (stops : List Char) : List Char → List Char
  | [] => []
  | c :: cs => if stops.contains c then [] else c :: takeUntilChar stops cs

/-- Does the second list start with the first one? -/
def charsStartWith : List Char → List Char → Bool
  | [], _ => true
  | _ :: _, [] => false
  | p :: ps, c :: cs => p == c && charsStartWith ps cs

/-- Python s.startswith(pat). -/
def strStartsWith (s pat : String) : Bool :=
  charsStartWith pat.data s.data

/-- Python truthiness of an optional string (None and the empty string are falsy). -/
def pyTruthyStr : Option String → Bool
  | none => false
  | some s => !(s == "")

/-! ### Python dict model: insertion-ordered association list -/

/-- A Python dict with string keys and string values, as an association list. -/
abbrev Dict := List (String × String)

/-- Python d.get(k): value of the first entry with the given key. -/
def dictGet : Dict → String → Option String
  | [], _ => none
  | p :: t, k => if p.1 == k then some p.2 else dictGet t k

/-- Python k in d. -/
def hasKey : Dict → String → Bool
  | [], _ => false
  | p :: t, k => p.1 == k || hasKey t k

/-- Replace the value stored under an existing key, keeping its position. -/
def dictReplace : Dict → String → String → Dict
  | [], _, _ => []
  | p :: t, k, v => (if p.1 == k then (k, v) else p) :: dictReplace t k v

/-- Python d[k] = v: update the value in place if the key exists, else append. -/
def dictSet (d : Dict) (k v : String) : Dict :=
  if hasKey d k then dictReplace d k v else d ++ [(k, v)]

/-- Python d.pop(k, None) / del d[k]: drop every entry with the given key. -/
def dictPop : Dict → String → Dict
  | [], _ => []
  | p :: t, k => if p.1 == k then dictPop t k else p :: dictPop t k

/-- Python del d[k]: KeyError when the key is absent. -/
def pyDel (d : Dict) (k : String) : Except String Dict :=
  if hasKey d k then .ok (dictPop d k) else .error ("KeyError: " ++ k)

/-! ### URL helpers

These formalise the side conditions of the claims (scheme, host) and feed the
spec-modelled hierarchical resource matching. -/

/-- Split a URL into the scheme and the part after the literal separator
colon-slash-slash; none when the URL carries no such separator. -/
def urlSplitScheme (u : String) : Option (String × String) :=
  match splitFirstChar ':' u.data with
  | some (sch, rest) =>
    if charsStartWith ['/', '/'] rest then
      some (String.mk sch, String.mk (rest.drop 2))
    else none
  | none => none

/-- Scheme, network location and path of a URL. -/
def urlParts (u : String) : String × String × String :=
  match urlSplitScheme u with
  | some (sch, rest) =>
    let netloc := takeUntilChar ['/', '?', '#'] rest.data
    let path := takeUntilChar ['?', '#'] (rest.data.drop netloc.length)
    (sch, String.mk netloc, String.mk path)
  | none => ("", "", String.mk (takeUntilChar ['?', '#'] u.data))

def urlScheme (u : String) : String := (urlParts u).1

def urlNetloc (u : String) : String := (urlParts u).2.1

def urlPath (u : String) : String := (urlParts u).2.2

/-- Host part of the network location: everything before the port separator. -/
def urlHost (u : String) : String :=
  String.mk (takeUntilChar [':'] (urlNetloc u).data)

/-- Is the host a loopback address (localhost, the 127.0.0.0/8 block, or the
IPv6 loopback)? -/
def isLoopbackHost (h : String) : Bool :=
  h == "localhost" || h == "::1" || charsStartWith "127.".data h.data

/-- Path segments of a URL path, with empty segments dropped, so that the root
path and the empty path coincide. -/
def pathSegments (p : String) : List String :=
  ((splitCharAux '/' p.data []).map String.mk).filter (fun s => !(s == ""))

/-- Modelled from the spec: the function check_resource_allowed imported from
mcp.shared.auth_utils is not part of this repository. The spec (sections 8
and 9) defines hierarchical matching as exact scheme, host and port equality
plus path containment: the requested resource (this server's canonical URL) is
covered when it equals the audience entry or is a sub-path of it. -/
def check_resource_allowed (requested_resource configured_resource : String) : Bool :=
  let r := urlParts requested_resource
  let c := urlParts configured_resource
  r.1 == c.1 && r.2.1 == c.2.1 &&
    (pathSegments c.2.2).isPrefixOf (pathSegments r.2.2)

/-! ### Token verifier (src/mcp_resource_server/token_verifier.py) -/

/-- The aud claim of an introspection response, when present: either a single
string or a list of strings. -/
inductive AudValue where
  | str : String → AudValue
  | lst : List String → AudValue
deriving DecidableEq

/-- The fields of the introspection response JSON that verify_token reads.
A missing active field reads as false, like data.get with a false default. -/
structure IntrospectionData where
  active : Bool
  scope : Option String
  exp : Option Int
  aud : Option AudValue
  client_id : Option String
deriving DecidableEq

/-- Identity claims returned by the userinfo endpoint, as a JSON object. -/
abbrev Claims := List (String × String)

instance instDecEqExcept {ε α : Type} [DecidableEq ε] [DecidableEq α] :
    DecidableEq (Except ε α) := fun x y =>
  match x, y with
  | .error e, .error f =>
    if h : e = f then .isTrue (by rw [h])
    else .isFalse (fun hh => h (Except.error.inj hh))
  | .ok a, .ok b =>
    if h : a = b then .isTrue (by rw [h])
    else .isFalse (fun hh => h (Except.ok.inj hh))
  | .error _, .ok _ => .isFalse (fun hh => Except.noConfusion hh)
  | .ok _, .error _ => .isFalse (fun hh => Except.noConfusion hh)

/-- An HTTP response: status code plus the outcome of parsing the body as
JSON (the error side is a raised parse exception). -/
structure HttpResp where
  status : Nat
  jsonBody : Except String IntrospectionData
deriving DecidableEq

/-- The network as seen by one verify_token call: the outcome of the
introspection POST and of the userinfo GET. An error value stands for any
exception raised while contacting the authorization server. -/
structure Network where
  introspect : Except String HttpResp
  userinfo : Except String Claims
deriving DecidableEq

/-- State of IntrospectionTokenVerifier. -/
structure IntrospectionTokenVerifier where
  introspection_endpoint : String
  userinfo_endpoint : String
  server_url : String
  validate_resource : Bool
  resource_url : String
  client_id : Option String
  client_secret : Option String
deriving DecidableEq

/-- AccessTokenWithClaims as assembled at the end of verify_token. -/
structure AccessTokenWithClaims where
  token : String
  client_id : String
  scopes : List String
  expires_at : Option Int
  resource : Option AudValue
  claims : Claims
deriving DecidableEq

/-- The SSRF guard of verify_token: the endpoint must start with one of the
three literal string patterns of the source. -/
def introspectionEndpointAllowed (endpoint : String) : Bool :=
  strStartsWith endpoint "https://" ||
  strStartsWith endpoint "http://localhost" ||
  strStartsWith endpoint "http://127.0.0.1"

/-- Are both client credentials set and non-empty (Python truthiness of
self.client_id and self.client_secret)? -/
def credsOk (v : IntrospectionTokenVerifier) : Bool :=
  pyTruthyStr v.client_id && pyTruthyStr v.client_secret

/-- The helper _is_valid_resource. -/
def isValidResource (v : IntrospectionTokenVerifier) (resource : String) : Bool :=
  if v.resource_url == "" then false
  else check_resource_allowed v.resource_url resource

/-- The helper _validate_resource: list aud succeeds when any entry matches,
string aud when truthy and matching, absent aud always fails. -/
def validateResource (v : IntrospectionTokenVerifier) (data : IntrospectionData) : Bool :=
  if v.server_url == "" || v.resource_url == "" then false
  else
    match data.aud with
    | some (.lst xs) => xs.any (isValidResource v)
    | some (.str a) => if a == "" then false else isValidResource v a
    | none => false

/-- The matching condition of claim C2, stated directly on the aud claim: at
least one audience entry hierarchically matches the configured resource URL. -/
def audMatches (v : IntrospectionTokenVerifier) : Option AudValue → Bool
  | none => false
  | some (.str a) => check_resource_allowed v.resource_url a
  | some (.lst xs) => xs.any (check_resource_allowed v.resource_url)

/-- Result of one verify_token call: the returned value (or raised ValueError
on the error side) together with whether the introspection POST was reached. -/
structure VerifyOutcome where
  result : Except String (Option AccessTokenWithClaims)
  introspectionCalled : Bool
deriving DecidableEq

/-- Shallow embedding of IntrospectionTokenVerifier.verify_token. Every branch
of the source try block that swallows an exception or fails a check becomes an
ok-none outcome; only missing client credentials raise. The scope-missing
branch models data.get("scope") returning Python None, whose split call raises
an AttributeError that the enclosing except turns into a none return. -/
def verify_token (v : IntrospectionTokenVerifier) (net : Network) (token : String) :
    VerifyOutcome :=
  if !(credsOk v) then
    ⟨.error "No client credentials set for introspection", false⟩
  else if !(introspectionEndpointAllowed v.introspection_endpoint) then
    ⟨.ok none, false⟩
  else
    match net.introspect with
    | .error _ => ⟨.ok none, true⟩
    | .ok resp =>
      if !(resp.status == 200) then ⟨.ok none, true⟩
      else
        match resp.jsonBody with
        | .error _ => ⟨.ok none, true⟩
        | .ok data =>
          if !data.active then ⟨.ok none, true⟩
          else if v.validate_resource && !(validateResource v data) then
            ⟨.ok none, true⟩
          else
            match net.userinfo with
            | .error _ => ⟨.ok none, true⟩
            | .ok userClaims =>
              match data.scope with
              | none => ⟨.ok none, true⟩
              | some s =>
                ⟨.ok (some
                  { token := token
                    client_id :=
                      match data.client_id with
                      | some c => c
                      | none => (v.client_id).getD ""
                    scopes := pySplitChar s ' '
                    expires_at := data.exp
                    resource := data.aud
                    claims := userClaims }), true⟩

/-! ### OAuth routes (src/mcp_resource_server/routes/oauth.py) -/

/-- The state touched by the registration route: the persisted credentials
file (none when the file does not exist) and the in-memory credentials of the
token verifier. -/
structure ServerState where
  credFile : Option Dict
  tvClientId : Option String
  tvClientSecret : Option String
deriving DecidableEq

/-- load_credentials: parse the file when it exists, else the empty dict. -/
def load_credentials (file : Option Dict) : Dict :=
  match file with
  | some d => d
  | none => []

/-- save_credentials: write the record, creating the file. -/
def save_credentials (st : ServerState) (d : Dict) : ServerState :=
  { st with credFile := some d }

/-- Outcome of one POST to the register route: the new state, the JSON
response (error side is the catch-all 400 handler), and how many upstream
registration calls were made. -/
structure RegOutcome where
  state : ServerState
  resp : Except String Dict
  upstreamCalls : Nat
deriving DecidableEq

/-- The shared tail of register_client: update the token verifier from the
record with Python item access (KeyError when absent, caught by the route's
except handler after the earlier effects have happened), then return the
record with the client secret deleted. -/
def registerFinish (st : ServerState) (data : Dict) (calls : Nat) : RegOutcome :=
  match dictGet data "client_id" with
  | none => ⟨st, .error "KeyError: client_id", calls⟩
  | some cid =>
    let st1 := { st with tvClientId := some cid }
    match dictGet data "client_secret" with
    | none => ⟨st1, .error "KeyError: client_secret", calls⟩
    | some sec =>
      let st2 := { st1 with tvClientSecret := some sec }
      ⟨st2, .ok (dictPop data "client_secret"), calls⟩

/-- Shallow embedding of the register_client route. reqBody is the outcome of
reading the request JSON; upstream is the outcome of the registration POST
(the error side covers network failures and raise_for_status). -/
def register_client (st : ServerState) (reqBody : Except String Unit)
    (upstream : Except String Dict) : RegOutcome :=
  let data := load_credentials st.credFile
  if data.isEmpty then
    match reqBody with
    | .error e => ⟨st, .error e, 0⟩
    | .ok _ =>
      match upstream with
      | .error e => ⟨st, .error e, 1⟩
      | .ok u =>
        match pyDel u "registration_access_token" with
        | .error e => ⟨st, .error e, 1⟩
        | .ok u1 =>
          match pyDel u1 "registration_client_uri" with
          | .error e => ⟨st, .error e, 1⟩
          | .ok u2 => registerFinish (save_credentials st u2) u2 1
  else registerFinish st data 0

/-- Python str() of an optional string, as used by the f-string re-encoding of
the token proxy (Python None renders as the text None). -/
def pyStr : Option String → String
  | some s => s
  | none => "None"

/-- Body parsing of the token_proxy route: split on the ampersand, keep the
items containing an equals sign, split each at the first equals sign, and
build a dict (later duplicates overwrite earlier values). -/
def parseFormBody (body : String) : Dict :=
  (pySplitChar body '&').foldl
    (fun d item =>
      match splitFirstChar '=' item.data with
      | some kv => dictSet d (String.mk kv.1) (String.mk kv.2)
      | none => d)
    []

/-- The form dict the token_proxy route forwards upstream: the stored client
secret is attached when the client_id of the request equals the stored one,
otherwise any caller-supplied client secret is removed. -/
def token_proxy_form (storedId storedSecret : Option String) (body : String) : Dict :=
  let formDict := parseFormBody body
  if dictGet formDict "client_id" == storedId then
    dictSet formDict "client_secret" (pyStr storedSecret)
  else
    dictPop formDict "client_secret"

/-- Re-encoding of the forwarded body. -/
def encodeFormBody (d : Dict) : String :=
  String.intercalate "&" (d.map (fun p => p.1 ++ "=" ++ p.2))

/-! ### Callback server (src/mcp_client/callback.py) and flow (src/mcp_client/auth.py) -/

/-- The shared callback_data cell of CallbackServer. -/
structure CallbackData where
  authorization_code : Option String
  state : Option String
  error : Option String
deriving DecidableEq

/-- The cell as initialised by CallbackServer.__init__. -/
def initCallbackData : CallbackData :=
  ⟨none, none, none⟩

/-- Parsed query parameters of one GET request, as produced by parse_qs:
a key may occur several times; blank values never occur. -/
abbrev QueryParams := List (String × String)

/-- All values of a key, in order (parse_qs groups them into one list). -/
def getVals (q : QueryParams) : String → List String
  | k =>
    match q with
    | [] => []
    | p :: t => if p.1 == k then p.2 :: getVals t k else getVals t k

/-- Shallow embedding of CallbackHandler.do_GET: a code parameter wins over an
error parameter; a code request also rewrites the state field from the request
(absent means None); anything else is answered 404 and leaves the cell alone.
Returns the new cell and the HTTP status of the confirmation page. -/
def do_GET (cd : CallbackData) (q : QueryParams) : CallbackData × Nat :=
  match (getVals q "code").head? with
  | some c =>
    ({ cd with authorization_code := some c, state := (getVals q "state").head? }, 200)
  | none =>
    match (getVals q "error").head? with
    | some e => ({ cd with error := some e }, 400)
    | none => (cd, 404)

/-- The cell after the listener thread has processed a sequence of requests. -/
def processRequests (cd : CallbackData) (reqs : List QueryParams) : CallbackData :=
  reqs.foldl (fun c q => (do_GET c q).1) cd

/-- What one flow observes at the end of the wait. -/
inductive WaitOutcome where
  | code : String → WaitOutcome
  | error : String → WaitOutcome
  | timeout : WaitOutcome
deriving DecidableEq

/-- One poll iteration of wait_for_callback: a truthy authorization_code is
checked before a truthy error; neither means keep sleeping. -/
def waitObserve (cd : CallbackData) : Option WaitOutcome :=
  if pyTruthyStr cd.authorization_code then
    match cd.authorization_code with
    | some c => some (.code c)
    | none => none
  else if pyTruthyStr cd.error then
    match cd.error with
    | some e => some (.error e)
    | none => none
  else none

/-- Shallow embedding of CallbackServer.wait_for_callback: the polling loop is
modelled by the sequence of cell states the waiter observes before the
deadline; the first observation with a truthy code or error decides the
outcome, and a fully silent observation sequence is the TimeoutError. -/
def wait_for_callback (obs : List CallbackData) : WaitOutcome :=
  match obs.findSome? waitObserve with
  | some o => o
  | none => .timeout

/-- Outcome of the coordinator's callback_handler from src/mcp_client/auth.py:
the returned pair or raised exception message, plus whether
callback_server.stop() was executed. -/
structure FlowOutcome where
  result : Except String (String × Option String)
  stopped : Bool
deriving DecidableEq

/-- Shallow embedding of callback_handler: wait, then read the state, then
stop. A raised OAuth-error or TimeoutError exception propagates before the
stop line is reached. -/
def callback_handler (obs : List CallbackData) (finalCd : CallbackData) : FlowOutcome :=
  match wait_for_callback obs with
  | .code c => ⟨.ok (c, finalCd.state), true⟩
  | .error e => ⟨.error ("OAuth error: " ++ e), false⟩
  | .timeout => ⟨.error "Timeout waiting for OAuth callback", false⟩

/-! ### Supporting lemmas -/

theorem dictGet_dictPop_self (d : Dict) (k : String) :
    dictGet (dictPop d k) k = none := by
  induction d with
  | nil => rfl
  | cons p t ih =>
    by_cases h : p.1 = k
    · simp [dictPop, h, ih]
    · simp [dictPop, dictGet, beq_iff_eq, h, ih]

theorem hasKey_dictPop_self (d : Dict) (k : String) :
    hasKey (dictPop d k) k = false := by
  induction d with
  | nil => rfl
  | cons p t ih =>
    by_cases h : p.1 = k
    · simp [dictPop, h, ih]
    · simp [dictPop, hasKey, beq_iff_eq, h, ih]

theorem hasKey_dictPop_of_not (d : Dict) (k k' : String) (h : hasKey d k = false) :
    hasKey (dictPop d k') k = false := by
  induction d with
  | nil => rfl
  | cons p t ih =>
    simp only [hasKey, Bool.or_eq_false_iff] at h
    by_cases h1 : p.1 = k'
    · simp [dictPop, h1, beq_iff_eq, ih h.2]
    · simp [dictPop, hasKey, beq_iff_eq, h1, h.1, ih h.2]

theorem dictGet_dictPop_ne (d : Dict) (k k' : String) (h : k' ≠ k) :
    dictGet (dictPop d k) k' = dictGet d k' := by
  induction d with
  | nil => rfl
  | cons p t ih =>
    by_cases h1 : p.1 = k
    · have h2 : ¬ p.1 = k' := by
        rw [h1]; exact fun he => h he.symm
      simp [dictPop, dictGet, beq_iff_eq, h1, h2, Ne.symm h, ih]
    · by_cases h2 : p.1 = k'
      · simp [dictPop, dictGet, beq_iff_eq, h1, h2, h]
      · simp [dictPop, dictGet, beq_iff_eq, h1, h2, ih]

theorem dictGet_dictReplace_self (d : Dict) (k v : String)
    (h : hasKey d k = true) : dictGet (dictReplace d k v) k = some v := by
  induction d with
  | nil => simp [hasKey] at h
  | cons p t ih =>
    by_cases h1 : p.1 = k
    · simp [dictReplace, dictGet, beq_iff_eq, h1]
    · simp only [hasKey, Bool.or_eq_true] at h
      have h2 := h.resolve_left (by simp [beq_iff_eq, h1])
      simp [dictReplace, dictGet, beq_iff_eq, h1, ih h2]

theorem dictGet_append_right_of_not (d : Dict) (e : Dict) (k : String)
    (h : hasKey d k = false) : dictGet (d ++ e) k = dictGet e k := by
  induction d with
  | nil => rfl
  | cons p t ih =>
    simp only [hasKey, Bool.or_eq_false_iff, beq_eq_false_iff_ne, ne_eq] at h
    simp only [List.cons_append, dictGet, beq_iff_eq]
    rw [if_neg (by simpa using h.1)]
    exact ih (by simpa [hasKey, beq_eq_false_iff_ne] using h.2)

theorem dictGet_dictSet_self (d : Dict) (k v : String) :
    dictGet (dictSet d k v) k = some v := by
  unfold dictSet
  cases h : hasKey d k with
  | true => simpa using dictGet_dictReplace_self d k v h
  | false =>
    simp only [Bool.false_eq_true, if_false]
    rw [dictGet_append_right_of_not d _ k h]
    simp [dictGet]

theorem hasKey_append (d e : Dict) (k : String) :
    hasKey (d ++ e) k = (hasKey d k || hasKey e k) := by
  induction d with
  | nil => simp [hasKey]
  | cons p t ih =>
    simp [hasKey, List.cons_append, ih, Bool.or_assoc]

theorem hasKey_dictReplace_self (d : Dict) (k v : String)
    (h : hasKey d k = true) : hasKey (dictReplace d k v) k = true := by
  induction d with
  | nil => simp [hasKey] at h
  | cons p t ih =>
    by_cases h1 : p.1 = k
    · simp [dictReplace, hasKey, beq_iff_eq, h1]
    · simp only [hasKey, Bool.or_eq_true] at h
      have h2 := h.resolve_left (by simp [beq_iff_eq, h1])
      simp [dictReplace, hasKey, beq_iff_eq, h1, ih h2]

theorem hasKey_dictSet_self (d : Dict) (k v : String) :
    hasKey (dictSet d k v) k = true := by
  unfold dictSet
  cases h : hasKey d k with
  | true => simpa using hasKey_dictReplace_self d k v h
  | false =>
    simp only [Bool.false_eq_true, if_false]
    rw [hasKey_append]
    simp [hasKey]

theorem dictGet_none_iff_hasKey_false (d : Dict) (k : String) :
    dictGet d k = none ↔ hasKey d k = false := by
  induction d with
  | nil => simp [dictGet, hasKey]
  | cons p t ih =>
    by_cases h : p.1 = k
    · simp [dictGet, hasKey, beq_iff_eq, h]
    · simp [dictGet, hasKey, beq_iff_eq, h, ih]


theorem hasKey_dictPop_ne (d : Dict) (k k' : String) (h : k ≠ k') :
    hasKey (dictPop d k') k = hasKey d k := by
  induction d with
  | nil => rfl
  | cons p t ih =>
    by_cases h1 : p.1 = k'
    · have h2 : ¬ k' = k := fun he => h he.symm
      simp [dictPop, hasKey, beq_iff_eq, h1, h2, ih]
    · simp [dictPop, hasKey, beq_iff_eq, h1, ih]

theorem isEmpty_false_of_dictGet_some (d : Dict) (k x : String)
    (h : dictGet d k = some x) : d.isEmpty = false := by
  cases d with
  | nil => simp [dictGet] at h
  | cons p t => rfl

theorem registerFinish_credFile (st : ServerState) (data : Dict) (calls : Nat) :
    (registerFinish st data calls).state.credFile = st.credFile := by
  unfold registerFinish
  cases dictGet data "client_id" with
  | none => rfl
  | some cid =>
    cases dictGet data "client_secret" with
    | none => rfl
    | some sec => rfl

theorem processRequests_append (cd : CallbackData) (rs : List QueryParams)
    (q : QueryParams) :
    processRequests cd (rs ++ [q]) = (do_GET (processRequests cd rs) q).1 := by
  unfold processRequests
  rw [List.foldl_append]
  rfl

theorem processRequests_error_of_code_only (cd : CallbackData)
    (rs : List QueryParams)
    (hall : ∀ r ∈ rs, ((getVals r "code").head?).isSome = true) :
    (processRequests cd rs).error = cd.error := by
  induction rs generalizing cd with
  | nil => rfl
  | cons r t ih =>
    have hr := hall r (List.mem_cons_self r t)
    have hcell : (do_GET cd r).1.error = cd.error := by
      unfold do_GET
      cases hc : (getVals r "code").head? with
      | some c => rfl
      | none => rw [hc] at hr; simp at hr
    have ht : ∀ x ∈ t, ((getVals x "code").head?).isSome = true :=
      fun x hx => hall x (List.mem_cons_of_mem r hx)
    calc (processRequests cd (r :: t)).error
        = (processRequests (do_GET cd r).1 t).error := rfl
      _ = (do_GET cd r).1.error := ih (do_GET cd r).1 ht
      _ = cd.error := hcell

theorem validateResource_eq_audMatches (v : IntrospectionTokenVerifier)
    (data : IntrospectionData) (hsrv : v.server_url ≠ "")
    (hsch : urlScheme v.resource_url ≠ "") :
    validateResource v data = audMatches v data.aud := by
  have hres : ¬ v.resource_url = "" := fun h0 => hsch (by rw [h0]; rfl)
  have hsb : (v.server_url == "") = false := beq_eq_false_iff_ne.mpr hsrv
  have hrb : (v.resource_url == "") = false := beq_eq_false_iff_ne.mpr hres
  have hschb : ((urlParts v.resource_url).1 == "") = false :=
    beq_eq_false_iff_ne.mpr (by simpa [urlScheme] using hsch)
  unfold validateResource audMatches
  rw [hsb, hrb]
  simp only [Bool.or_self, Bool.false_eq_true, if_false]
  cases data.aud with
  | none => rfl
  | some a =>
    cases a with
    | str s =>
      by_cases hs : s = ""
      · subst hs
        simp only [beq_self_eq_true, if_true]
        have : check_resource_allowed v.resource_url "" = false := by
          unfold check_resource_allowed
          have hparts : urlParts "" = ("", "", "") := rfl
          rw [hparts]
          simp [hschb]
        rw [this]
      · have hsb2 : (s == "") = false := beq_eq_false_iff_ne.mpr hs
        simp [hsb2, isValidResource, hrb]
    | lst xs =>
      have hfun : isValidResource v = check_resource_allowed v.resource_url := by
        funext a
        simp [isValidResource, hrb]
      rw [hfun]

theorem verify_token_error_of_misconfigured (v : IntrospectionTokenVerifier)
    (net : Network) (token : String) (hc : credsOk v = false) :
    (verify_token v net token).result =
      .error "No client credentials set for introspection" := by
  unfold verify_token
  rw [hc]
  rfl

theorem verify_token_ok_shape (v : IntrospectionTokenVerifier) (net : Network)
    (token : String) (hc : credsOk v = true) :
    (verify_token v net token).result = .ok none ∨
    ∃ t, (verify_token v net token).result = .ok (some t) := by
  unfold verify_token
  rw [hc]
  simp only [Bool.not_true, Bool.false_eq_true, if_false]
  repeat' split
  all_goals first
  | exact Or.inl rfl
  | exact Or.inr ⟨_, rfl⟩

theorem verify_token_none_of_introspect_error (v : IntrospectionTokenVerifier)
    (net : Network) (token e : String)
    (hc : credsOk v = true) (h : net.introspect = .error e) :
    (verify_token v net token).result = .ok none := by
  simp only [verify_token, hc, h, Bool.not_true, Bool.false_eq_true, if_false]
  repeat' split
  all_goals rfl

theorem verify_token_none_of_non200 (v : IntrospectionTokenVerifier)
    (net : Network) (token : String) (resp : HttpResp)
    (hc : credsOk v = true) (h : net.introspect = .ok resp)
    (hs : resp.status ≠ 200) :
    (verify_token v net token).result = .ok none := by
  have hsb : (resp.status == 200) = false := beq_eq_false_iff_ne.mpr hs
  simp only [verify_token, hc, h, hsb, Bool.not_true, Bool.not_false,
    Bool.false_eq_true, if_false, if_true]
  repeat' split
  all_goals rfl

theorem verify_token_none_of_body_error (v : IntrospectionTokenVerifier)
    (net : Network) (token : String) (resp : HttpResp) (e : String)
    (hc : credsOk v = true) (h : net.introspect = .ok resp)
    (hb : resp.jsonBody = .error e) :
    (verify_token v net token).result = .ok none := by
  simp only [verify_token, hc, h, hb, Bool.not_true, Bool.false_eq_true,
    if_false]
  repeat' split
  all_goals rfl

theorem verify_token_none_of_inactive (v : IntrospectionTokenVerifier)
    (net : Network) (token : String) (resp : HttpResp)
    (data : IntrospectionData)
    (hc : credsOk v = true) (h : net.introspect = .ok resp)
    (hb : resp.jsonBody = .ok data) (ha : data.active = false) :
    (verify_token v net token).result = .ok none := by
  simp only [verify_token, hc, h, hb, ha, Bool.not_true, Bool.not_false,
    Bool.false_eq_true, if_false, if_true]
  repeat' split
  all_goals rfl

theorem verify_token_none_of_validation_failure (v : IntrospectionTokenVerifier)
    (net : Network) (token : String) (resp : HttpResp)
    (data : IntrospectionData)
    (hc : credsOk v = true) (h : net.introspect = .ok resp)
    (hb : resp.jsonBody = .ok data) (ha : data.active = true)
    (hstrict : v.validate_resource = true)
    (hval : validateResource v data = false) :
    (verify_token v net token).result = .ok none := by
  simp only [verify_token, hc, h, hb, ha, hstrict, hval, Bool.not_true,
    Bool.not_false, Bool.and_self, Bool.false_eq_true, if_false, if_true]
  repeat' split
  all_goals rfl

theorem verify_token_none_of_userinfo_error (v : IntrospectionTokenVerifier)
    (net : Network) (token e : String)
    (hc : credsOk v = true) (hu : net.userinfo = .error e) :
    (verify_token v net token).result = .ok none := by
  simp only [verify_token, hc, hu, Bool.not_true, Bool.false_eq_true, if_false]
  repeat' split
  all_goals rfl

theorem pyDel_ok (d : Dict) (k : String) (h : hasKey d k = true) :
    pyDel d k = .ok (dictPop d k) := by
  unfold pyDel
  rw [h]
  rfl

theorem pyDel_error (d : Dict) (k : String) (h : hasKey d k = false) :
    pyDel d k = .error ("KeyError: " ++ k) := by
  unfold pyDel
  rw [h]
  rfl

theorem registerFinish_success (st : ServerState) (data : Dict)
    (cid sec : String) (calls : Nat)
    (hcid : dictGet data "client_id" = some cid)
    (hsec : dictGet data "client_secret" = some sec) :
    registerFinish st data calls =
      ⟨⟨st.credFile, some cid, some sec⟩, .ok (dictPop data "client_secret"), calls⟩ := by
  unfold registerFinish
  simp only [hcid, hsec]

theorem register_client_fresh_success (st : ServerState) (u : Dict)
    (hfile : (load_credentials st.credFile).isEmpty = true)
    (h1 : hasKey u "registration_access_token" = true)
    (h2 : hasKey (dictPop u "registration_access_token") "registration_client_uri" = true) :
    register_client st (.ok ()) (.ok u) =
      registerFinish
        (save_credentials st
          (dictPop (dictPop u "registration_access_token") "registration_client_uri"))
        (dictPop (dictPop u "registration_access_token") "registration_client_uri") 1 := by
  unfold register_client
  simp only [hfile, if_true, pyDel_ok u "registration_access_token" h1,
    pyDel_ok (dictPop u "registration_access_token") "registration_client_uri" h2]

theorem register_client_existing (st : ServerState) (d : Dict)
    (b : Except String Unit) (u : Except String Dict)
    (hd : load_credentials st.credFile = d) (hne : d.isEmpty = false) :
    register_client st b u = registerFinish st d 0 := by
  unfold register_client
  simp only [hd, hne, Bool.false_eq_true, if_false]

/-! ### Claim theorems -/

/-- C1. The claim states that every introspection endpoint whose scheme is not
https and that is not plaintext http to a loopback host makes verify_token
return none before any network call. The code checks the endpoint with a
string-prefix test, so the plaintext non-loopback host localhost.evil.com
passes the guard and the introspection POST is attempted (and, with a
cooperating network, even yields a verified token). -/
theorem verify_token_ssrf_guard_bypassed :
    urlScheme "http://localhost.evil.com/introspect" ≠ "https" ∧
    isLoopbackHost (urlHost "http://localhost.evil.com/introspect") = false ∧
    (verify_token
      ⟨"http://localhost.evil.com/introspect", "https://as/userinfo",
        "http://localhost:8001/mcp", false, "http://localhost:8001/mcp",
        some "cid", some "sec"⟩
      ⟨.error "network unreachable", .error "network unreachable"⟩
      "token").introspectionCalled = true ∧
    (∃ t,
      (verify_token
        ⟨"http://localhost.evil.com/introspect", "https://as/userinfo",
          "http://localhost:8001/mcp", false, "http://localhost:8001/mcp",
          some "cid", some "sec"⟩
        ⟨.ok ⟨200, .ok ⟨true, some "openid", none, none, none⟩⟩, .ok []⟩
        "token").result = .ok (some t)) := by
  exact ⟨by decide, by decide, by decide,
    ⟨⟨"token", "cid", ["openid"], none, none, []⟩, by decide⟩⟩

/-- C4. The forwarded token-exchange form carries the stored client secret
exactly when the client_id of the parsed request body equals the stored
active client_id; otherwise the forwarded form has no client_secret field at
all, even when the caller supplied one inside the body. -/
theorem token_proxy_secret_injection (cid sec body : String) :
    dictGet (token_proxy_form (some cid) (some sec) body) "client_secret" =
      (if dictGet (parseFormBody body) "client_id" == some cid then some sec
       else none) ∧
    hasKey (token_proxy_form (some cid) (some sec) body) "client_secret" =
      (dictGet (parseFormBody body) "client_id" == some cid) := by
  unfold token_proxy_form
  cases h : (dictGet (parseFormBody body) "client_id" == some cid) with
  | true =>
    simp only [h, if_true]
    exact ⟨dictGet_dictSet_self _ _ _, hasKey_dictSet_self _ _ _⟩
  | false =>
    simp only [h, Bool.false_eq_true, if_false]
    exact ⟨dictGet_dictPop_self _ _, hasKey_dictPop_self _ _⟩

/-- C9. The claim states that a timed-out wait also has the coordinator stop
the listener. In callback_handler the stop call sits on the line after
wait_for_callback, with no try/finally, so the TimeoutError propagates and
stop is never executed: the flow fails with the timeout error while the
listener keeps running. -/
theorem timeout_flow_leaves_listener_running :
    callback_handler [initCallbackData] initCallbackData =
      ⟨.error "Timeout waiting for OAuth callback", false⟩ := by
  decide

/-- C7 counterexample. Two valid authorization-code callbacks in one flow:
the handler overwrites the shared cell, so the cell holds the second code and
a waiter polling after both requests returns it; the first recognized request
does not win. -/
theorem callback_first_request_does_not_win :
    (processRequests initCallbackData [[("code", "a")], [("code", "b")]]).authorization_code
      = some "b" ∧
    wait_for_callback
      [processRequests initCallbackData [[("code", "a")], [("code", "b")]]]
      = .code "b" ∧
    (WaitOutcome.code "b" ≠ WaitOutcome.code "a") := by
  decide

/-- C7 amended. For every flow whose requests are all valid authorization-code
callbacks, the wait returns a result with code set and error absent; the code
(and accompanying state) is that of the last such request processed before
the waiter observes the cell, later requests overwriting earlier ones. -/
theorem wait_returns_code_of_code_only_flow (rs : List QueryParams)
    (q : QueryParams) (c : String)
    (hq : (getVals q "code").head? = some c) (hc : c ≠ "")
    (hall : ∀ r ∈ rs, ((getVals r "code").head?).isSome = true) :
    processRequests initCallbackData (rs ++ [q]) =
      ⟨some c, (getVals q "state").head?, none⟩ ∧
    wait_for_callback [processRequests initCallbackData (rs ++ [q])] = .code c := by
  have hstep : processRequests initCallbackData (rs ++ [q]) =
      ⟨some c, (getVals q "state").head?, none⟩ := by
    rw [processRequests_append]
    have herr : (processRequests initCallbackData rs).error = none :=
      processRequests_error_of_code_only initCallbackData rs hall
    unfold do_GET
    rw [hq]
    cases hcell : processRequests initCallbackData rs with
    | mk ac st er =>
      rw [hcell] at herr
      simp only at herr
      simp [herr]
  refine ⟨hstep, ?_⟩
  rw [hstep]
  have hcb : (c == "") = false := beq_eq_false_iff_ne.mpr hc
  simp [wait_for_callback, waitObserve, pyTruthyStr, hcb]

/-- C7 witness for the amended theorem at a concrete two-request flow. -/
theorem wait_returns_code_of_code_only_flow_witness :
    processRequests initCallbackData [[("code", "first")], [("code", "last"), ("state", "s1")]] =
      ⟨some "last", some "s1", none⟩ ∧
    wait_for_callback
      [processRequests initCallbackData [[("code", "first")], [("code", "last"), ("state", "s1")]]]
      = .code "last" := by
  exact wait_returns_code_of_code_only_flow [[("code", "first")]]
    [("code", "last"), ("state", "s1")] "last" (by decide) (by decide)
    (by decide)

/-- C8 counterexample. A callback request carrying an error parameter next to
a code parameter is treated as a success: the handler takes the code branch,
the error cell stays empty, and the flow returns the code instead of failing
with the denial. -/
theorem error_param_beside_code_returns_code :
    (getVals [("code", "x"), ("error", "denied")] "error").head? = some "denied" ∧
    callback_handler
      [(do_GET initCallbackData [("code", "x"), ("error", "denied")]).1]
      (do_GET initCallbackData [("code", "x"), ("error", "denied")]).1 =
      ⟨.ok ("x", none), true⟩ := by
  decide

/-- C8 amended. For every callback request carrying an error query parameter
and no code parameter, the flow fails with the OAuth-error exception carrying
that error value verbatim, the stop line is never reached, and no code is
ever returned (the code cell stays empty); a request carrying both code and
error is instead treated as a code callback. -/
theorem error_only_callback_denies_flow (q : QueryParams) (e : String)
    (he : (getVals q "error").head? = some e) (hne : e ≠ "")
    (hnc : getVals q "code" = []) :
    callback_handler [(do_GET initCallbackData q).1] (do_GET initCallbackData q).1 =
      ⟨.error ("OAuth error: " ++ e), false⟩ ∧
    (do_GET initCallbackData q).1.authorization_code = none := by
  have hcell : (do_GET initCallbackData q).1 = ⟨none, none, some e⟩ := by
    unfold do_GET
    rw [hnc, he]
    rfl
  rw [hcell]
  have heb : (e == "") = false := beq_eq_false_iff_ne.mpr hne
  constructor
  · unfold callback_handler wait_for_callback
    simp [waitObserve, pyTruthyStr, heb, initCallbackData]
  · rfl

/-- C8 witness for the amended theorem at a concrete denied flow. -/
theorem error_only_callback_denies_flow_witness :
    callback_handler [(do_GET initCallbackData [("error", "access_denied")]).1]
      (do_GET initCallbackData [("error", "access_denied")]).1 =
      ⟨.error "OAuth error: access_denied", false⟩ ∧
    (do_GET initCallbackData [("error", "access_denied")]).1.authorization_code = none := by
  exact error_only_callback_denies_flow [("error", "access_denied")]
    "access_denied" (by decide) (by decide) (by decide)

/-- C2. With strict resource validation on and an active, parseable 200
introspection response whose remaining steps can succeed (scope present,
userinfo reachable, resource URLs configured), verify_token returns a
populated token exactly when at least one aud entry hierarchically matches
the configured resource URL, and returns none whenever no entry matches — in
particular when aud is absent, a non-matching string, or a list without a
matching element. -/
theorem verify_token_strict_resource_validation
    (v : IntrospectionTokenVerifier) (token s : String) (userClaims : Claims)
    (dexp : Option Int) (daud : Option AudValue) (dcid : Option String)
    (hcreds : credsOk v = true)
    (hep : introspectionEndpointAllowed v.introspection_endpoint = true)
    (hstrict : v.validate_resource = true)
    (hsrv : v.server_url ≠ "")
    (hsch : urlScheme v.resource_url ≠ "") :
    ((∃ t,
      (verify_token v
        ⟨.ok ⟨200, .ok ⟨true, some s, dexp, daud, dcid⟩⟩, .ok userClaims⟩
        token).result = .ok (some t)) ↔ audMatches v daud = true) ∧
    (audMatches v daud = false →
      (verify_token v
        ⟨.ok ⟨200, .ok ⟨true, some s, dexp, daud, dcid⟩⟩, .ok userClaims⟩
        token).result = .ok none) := by
  have hval : validateResource v ⟨true, some s, dexp, daud, dcid⟩ =
      audMatches v daud :=
    validateResource_eq_audMatches v ⟨true, some s, dexp, daud, dcid⟩ hsrv hsch
  cases hm : audMatches v daud with
  | true =>
    have hr : ∃ t,
        (verify_token v
          ⟨.ok ⟨200, .ok ⟨true, some s, dexp, daud, dcid⟩⟩, .ok userClaims⟩
          token).result = .ok (some t) := by
      simp only [verify_token, hcreds, hep, hstrict, hval, hm, Bool.not_true,
        Bool.and_true, Bool.and_false, Bool.false_eq_true, if_false,
        beq_self_eq_true]
      exact ⟨_, rfl⟩
    exact ⟨⟨fun _ => rfl, fun _ => hr⟩, fun hf => Bool.noConfusion hf⟩
  | false =>
    have hr :
        (verify_token v
          ⟨.ok ⟨200, .ok ⟨true, some s, dexp, daud, dcid⟩⟩, .ok userClaims⟩
          token).result = .ok none := by
      simp only [verify_token, hcreds, hep, hstrict, hval, hm, Bool.not_true,
        Bool.not_false, Bool.and_true, Bool.false_eq_true, if_false, if_true,
        beq_self_eq_true]
    refine ⟨⟨?_, ?_⟩, fun _ => hr⟩
    · rintro ⟨t, ht⟩
      rw [hr] at ht
      exact Option.noConfusion (Except.ok.inj ht)
    · intro h
      exact Bool.noConfusion h

/-- C2 witness: a matching single-string aud yields a populated token for a
concrete strict-mode verifier. -/
theorem verify_token_strict_resource_validation_witness :
    audMatches
      ⟨"https://as/introspect", "https://as/userinfo", "http://localhost:8001/mcp",
        true, "http://localhost:8001/mcp", some "cid", some "sec"⟩
      (some (.str "http://localhost:8001")) = true ∧
    ∃ t,
      (verify_token
        ⟨"https://as/introspect", "https://as/userinfo", "http://localhost:8001/mcp",
          true, "http://localhost:8001/mcp", some "cid", some "sec"⟩
        ⟨.ok ⟨200, .ok ⟨true, some "openid full_profile", some 1999999999,
          some (.str "http://localhost:8001"), none⟩⟩,
         .ok [("email", "a@graviteesource.com")]⟩
        "tok").result = .ok (some t) :=
  ⟨by decide,
    (verify_token_strict_resource_validation
      ⟨"https://as/introspect", "https://as/userinfo", "http://localhost:8001/mcp",
        true, "http://localhost:8001/mcp", some "cid", some "sec"⟩
      "tok" "openid full_profile" [("email", "a@graviteesource.com")]
      (some 1999999999) (some (.str "http://localhost:8001")) none
      (by decide) (by decide) (by decide) (by decide) (by decide)).1.mpr
      (by decide)⟩

/-- C3. verify_token raises exactly in the misconfiguration case of missing
or empty client credentials. Whenever credentials are present it returns (the
token or none) instead of raising, for every network behaviour, and each
invalid-token case of the claim returns none: a failure while contacting the
authorization server (introspection POST raising, or the userinfo GET
raising), a non-200 introspection response, an unparseable body, an
active:false field, and a failed strict resource validation. -/
theorem verify_token_never_raises_for_invalid_tokens
    (v : IntrospectionTokenVerifier) (net : Network) (token : String) :
    ((∃ e, (verify_token v net token).result = .error e) ↔ credsOk v = false) ∧
    (credsOk v = true →
      ((verify_token v net token).result = .ok none ∨
        ∃ t, (verify_token v net token).result = .ok (some t)) ∧
      (∀ e, net.introspect = .error e →
        (verify_token v net token).result = .ok none) ∧
      (∀ resp, net.introspect = .ok resp → resp.status ≠ 200 →
        (verify_token v net token).result = .ok none) ∧
      (∀ resp e, net.introspect = .ok resp → resp.jsonBody = .error e →
        (verify_token v net token).result = .ok none) ∧
      (∀ resp data, net.introspect = .ok resp → resp.jsonBody = .ok data →
        data.active = false →
        (verify_token v net token).result = .ok none) ∧
      (∀ resp data, net.introspect = .ok resp → resp.jsonBody = .ok data →
        data.active = true → v.validate_resource = true →
        validateResource v data = false →
        (verify_token v net token).result = .ok none) ∧
      (∀ e, net.userinfo = .error e →
        (verify_token v net token).result = .ok none)) := by
  constructor
  · constructor
    · rintro ⟨e, hee⟩
      cases hcc : credsOk v with
      | false => rfl
      | true =>
        rcases verify_token_ok_shape v net token hcc with h | ⟨t, h⟩ <;>
          rw [h] at hee <;> exact Except.noConfusion hee
    · intro hcc
      exact ⟨_, verify_token_error_of_misconfigured v net token hcc⟩
  · intro hcc
    refine ⟨verify_token_ok_shape v net token hcc, ?_, ?_, ?_, ?_, ?_, ?_⟩
    · exact fun e he =>
        verify_token_none_of_introspect_error v net token e hcc he
    · exact fun resp hr hs =>
        verify_token_none_of_non200 v net token resp hcc hr hs
    · exact fun resp e hr hb =>
        verify_token_none_of_body_error v net token resp e hcc hr hb
    · exact fun resp data hr hb ha =>
        verify_token_none_of_inactive v net token resp data hcc hr hb ha
    · exact fun resp data hr hb ha hstrict hval =>
        verify_token_none_of_validation_failure v net token resp data hcc hr hb
          ha hstrict hval
    · exact fun e hu =>
        verify_token_none_of_userinfo_error v net token e hcc hu

/-- C3 witness: with credentials present, a raising introspection POST, a 503
response, an inactive token and a failed strict validation each return none,
while missing credentials raise. -/
theorem verify_token_never_raises_witness :
    credsOk
      ⟨"https://as/introspect", "https://as/userinfo", "http://h:8001", false,
        "http://h:8001", some "cid", some "sec"⟩ = true ∧
    (verify_token
      ⟨"https://as/introspect", "https://as/userinfo", "http://h:8001", false,
        "http://h:8001", some "cid", some "sec"⟩
      ⟨.error "connection refused", .error "connection refused"⟩
      "tok").result = .ok none ∧
    (verify_token
      ⟨"https://as/introspect", "https://as/userinfo", "http://h:8001", false,
        "http://h:8001", some "cid", some "sec"⟩
      ⟨.ok ⟨503, .error "not json"⟩, .ok []⟩
      "tok").result = .ok none ∧
    (verify_token
      ⟨"https://as/introspect", "https://as/userinfo", "http://h:8001", false,
        "http://h:8001", some "cid", some "sec"⟩
      ⟨.ok ⟨200, .ok ⟨false, some "openid", none, none, none⟩⟩, .ok []⟩
      "tok").result = .ok none ∧
    (verify_token
      ⟨"https://as/introspect", "https://as/userinfo", "http://h:8001", true,
        "http://h:8001", some "cid", some "sec"⟩
      ⟨.ok ⟨200, .ok ⟨true, some "openid", none, none, none⟩⟩, .ok []⟩
      "tok").result = .ok none ∧
    ∃ e,
      (verify_token
        ⟨"https://as/introspect", "https://as/userinfo", "http://h:8001", false,
          "http://h:8001", none, none⟩
        ⟨.error "connection refused", .error "connection refused"⟩
        "tok").result = .error e :=
  ⟨by decide,
    ((verify_token_never_raises_for_invalid_tokens
      ⟨"https://as/introspect", "https://as/userinfo", "http://h:8001", false,
        "http://h:8001", some "cid", some "sec"⟩
      ⟨.error "connection refused", .error "connection refused"⟩
      "tok").2 (by decide)).2.1 "connection refused" rfl,
    ((verify_token_never_raises_for_invalid_tokens
      ⟨"https://as/introspect", "https://as/userinfo", "http://h:8001", false,
        "http://h:8001", some "cid", some "sec"⟩
      ⟨.ok ⟨503, .error "not json"⟩, .ok []⟩
      "tok").2 (by decide)).2.2.1 ⟨503, .error "not json"⟩ rfl (by decide),
    ((verify_token_never_raises_for_invalid_tokens
      ⟨"https://as/introspect", "https://as/userinfo", "http://h:8001", false,
        "http://h:8001", some "cid", some "sec"⟩
      ⟨.ok ⟨200, .ok ⟨false, some "openid", none, none, none⟩⟩, .ok []⟩
      "tok").2 (by decide)).2.2.2.2.1 ⟨200, .ok ⟨false, some "openid", none, none, none⟩⟩
      ⟨false, some "openid", none, none, none⟩ rfl rfl rfl,
    ((verify_token_never_raises_for_invalid_tokens
      ⟨"https://as/introspect", "https://as/userinfo", "http://h:8001", true,
        "http://h:8001", some "cid", some "sec"⟩
      ⟨.ok ⟨200, .ok ⟨true, some "openid", none, none, none⟩⟩, .ok []⟩
      "tok").2 (by decide)).2.2.2.2.2.1 ⟨200, .ok ⟨true, some "openid", none, none, none⟩⟩
      ⟨true, some "openid", none, none, none⟩ rfl rfl rfl rfl (by decide),
    (verify_token_never_raises_for_invalid_tokens
      ⟨"https://as/introspect", "https://as/userinfo", "http://h:8001", false,
        "http://h:8001", none, none⟩
      ⟨.error "connection refused", .error "connection refused"⟩
      "tok").1.mpr (by decide)⟩

/-- C10. An introspection response that reports the token active but carries
no scope field makes verify_token return none: the attribute access on the
absent scope raises inside the try block and the catch-all handler collapses
the request to unverified, regardless of the other response fields and of the
userinfo outcome. -/
theorem verify_token_none_when_scope_missing
    (v : IntrospectionTokenVerifier) (nu : Except String Claims)
    (token : String) (dexp : Option Int) (daud : Option AudValue)
    (dcid : Option String)
    (hc : credsOk v = true) :
    (verify_token v ⟨.ok ⟨200, .ok ⟨true, none, dexp, daud, dcid⟩⟩, nu⟩
      token).result = .ok none := by
  unfold verify_token
  rw [hc]
  simp only [Bool.not_true, Bool.false_eq_true, if_false]
  repeat' split
  all_goals rfl

/-- C10 witness: a concrete active, scope-less introspection response yields
a none result. -/
theorem verify_token_none_when_scope_missing_witness :
    credsOk
      ⟨"https://as/introspect", "https://as/userinfo", "http://h:8001", false,
        "http://h:8001", some "cid", some "sec"⟩ = true ∧
    (verify_token
      ⟨"https://as/introspect", "https://as/userinfo", "http://h:8001", false,
        "http://h:8001", some "cid", some "sec"⟩
      ⟨.ok ⟨200, .ok ⟨true, none, none, some (.str "http://h:8001"), none⟩⟩,
        .ok [("email", "a@b.c")]⟩
      "tok").result = .ok none :=
  ⟨by decide,
    verify_token_none_when_scope_missing
      ⟨"https://as/introspect", "https://as/userinfo", "http://h:8001", false,
        "http://h:8001", some "cid", some "sec"⟩
      (.ok [("email", "a@b.c")]) "tok" none (some (.str "http://h:8001")) none
      (by decide)⟩

/-- C5. Registering twice in a row, the second call while the record written
by the first is persisted, performs zero additional upstream registration
calls, leaves the persisted file and the in-memory credentials exactly as
after the first call, and returns the existing client_id. -/
theorem register_client_idempotent
    (st0 : ServerState) (u : Dict) (cid sec : String)
    (b2 : Except String Unit) (u2 : Except String Dict)
    (hfile : st0.credFile = none)
    (hra : hasKey u "registration_access_token" = true)
    (hru : hasKey u "registration_client_uri" = true)
    (hcid : dictGet u "client_id" = some cid)
    (hsec : dictGet u "client_secret" = some sec) :
    (register_client (register_client st0 (.ok ()) (.ok u)).state b2 u2).upstreamCalls = 0 ∧
    (register_client (register_client st0 (.ok ()) (.ok u)).state b2 u2).state =
      (register_client st0 (.ok ()) (.ok u)).state ∧
    ∃ d,
      (register_client (register_client st0 (.ok ()) (.ok u)).state b2 u2).resp = .ok d ∧
      dictGet d "client_id" = some cid := by
  set D := dictPop (dictPop u "registration_access_token") "registration_client_uri" with hD
  have hru' : hasKey (dictPop u "registration_access_token") "registration_client_uri" = true := by
    rw [hasKey_dictPop_ne u "registration_client_uri" "registration_access_token" (by decide)]
    exact hru
  have hcidD : dictGet D "client_id" = some cid := by
    rw [hD, dictGet_dictPop_ne _ _ _ (by decide), dictGet_dictPop_ne _ _ _ (by decide)]
    exact hcid
  have hsecD : dictGet D "client_secret" = some sec := by
    rw [hD, dictGet_dictPop_ne _ _ _ (by decide), dictGet_dictPop_ne _ _ _ (by decide)]
    exact hsec
  have hfile' : (load_credentials st0.credFile).isEmpty = true := by
    rw [hfile]
    rfl
  have e1 : register_client st0 (.ok ()) (.ok u) =
      registerFinish (save_credentials st0 D) D 1 :=
    register_client_fresh_success st0 u hfile' hra hru'
  have e2 : registerFinish (save_credentials st0 D) D 1 =
      ⟨⟨some D, some cid, some sec⟩, .ok (dictPop D "client_secret"), 1⟩ := by
    rw [registerFinish_success (save_credentials st0 D) D cid sec 1 hcidD hsecD]
    rfl
  have e3 : register_client (⟨some D, some cid, some sec⟩ : ServerState) b2 u2 =
      registerFinish ⟨some D, some cid, some sec⟩ D 0 :=
    register_client_existing ⟨some D, some cid, some sec⟩ D b2 u2 rfl
      (isEmpty_false_of_dictGet_some D "client_id" cid hcidD)
  have e4 : registerFinish (⟨some D, some cid, some sec⟩ : ServerState) D 0 =
      ⟨⟨some D, some cid, some sec⟩, .ok (dictPop D "client_secret"), 0⟩ := by
    rw [registerFinish_success ⟨some D, some cid, some sec⟩ D cid sec 0 hcidD hsecD]
  simp only [e1, e2, e3, e4]
  refine ⟨trivial, trivial, ⟨dictPop D "client_secret", rfl, ?_⟩⟩
  rw [dictGet_dictPop_ne _ _ _ (by decide)]
  exact hcidD

/-- C5 witness: a concrete fresh registration followed by a second request
while the file persists makes no upstream call and returns the same
client_id. -/
theorem register_client_idempotent_witness :
    (register_client
      (register_client ⟨none, none, none⟩ (.ok ())
        (.ok [("registration_access_token", "rat"), ("registration_client_uri", "uri"),
          ("client_id", "abc"), ("client_secret", "s")])).state
      (.ok ()) (.error "upstream down")).upstreamCalls = 0 ∧
    (register_client
      (register_client ⟨none, none, none⟩ (.ok ())
        (.ok [("registration_access_token", "rat"), ("registration_client_uri", "uri"),
          ("client_id", "abc"), ("client_secret", "s")])).state
      (.ok ()) (.error "upstream down")).state =
      (register_client ⟨none, none, none⟩ (.ok ())
        (.ok [("registration_access_token", "rat"), ("registration_client_uri", "uri"),
          ("client_id", "abc"), ("client_secret", "s")])).state ∧
    ∃ d,
      (register_client
        (register_client ⟨none, none, none⟩ (.ok ())
          (.ok [("registration_access_token", "rat"), ("registration_client_uri", "uri"),
            ("client_id", "abc"), ("client_secret", "s")])).state
        (.ok ()) (.error "upstream down")).resp = .ok d ∧
      dictGet d "client_id" = some "abc" :=
  register_client_idempotent ⟨none, none, none⟩
    [("registration_access_token", "rat"), ("registration_client_uri", "uri"),
      ("client_id", "abc"), ("client_secret", "s")]
    "abc" "s" (.ok ()) (.error "upstream down")
    rfl (by decide) (by decide) (by decide) (by decide)

/-- C6. No execution of the registration route writes a credential record
that still contains the registration_access_token or registration_client_uri
fields: either the persisted file is left untouched, or the newly written
record carries neither field (both are deleted before save_credentials runs,
and a failing delete aborts the route before any write). -/
theorem register_client_never_persists_management_artifacts
    (st : ServerState) (b : Except String Unit) (u : Except String Dict) :
    (register_client st b u).state.credFile = st.credFile ∨
    ∃ d, (register_client st b u).state.credFile = some d ∧
      hasKey d "registration_access_token" = false ∧
      hasKey d "registration_client_uri" = false := by
  unfold register_client
  cases hE : (load_credentials st.credFile).isEmpty with
  | false =>
    simp only [hE, Bool.false_eq_true, if_false]
    exact Or.inl (registerFinish_credFile st _ 0)
  | true =>
    simp only [hE, if_true]
    cases b with
    | error e => exact Or.inl rfl
    | ok bu =>
      cases u with
      | error e => exact Or.inl rfl
      | ok ud =>
        cases h1 : hasKey ud "registration_access_token" with
        | false =>
          simp only [pyDel_error ud "registration_access_token" h1]
          exact Or.inl trivial
        | true =>
          simp only [pyDel_ok ud "registration_access_token" h1]
          cases h2 : hasKey (dictPop ud "registration_access_token") "registration_client_uri" with
          | false =>
            simp only [pyDel_error (dictPop ud "registration_access_token")
              "registration_client_uri" h2]
            exact Or.inl trivial
          | true =>
            simp only [pyDel_ok (dictPop ud "registration_access_token")
              "registration_client_uri" h2]
            right
            refine ⟨dictPop (dictPop ud "registration_access_token") "registration_client_uri",
              ?_, ?_, ?_⟩
            · rw [registerFinish_credFile]
              rfl
            · exact hasKey_dictPop_of_not _ _ _ (hasKey_dictPop_self ud _)
            · exact hasKey_dictPop_self _ _

end OAuthMCP
